import Mathlib

/-
Verification of the session/credential protocol of src/client.py
(class Client: check_response, connect, login, verify, build_token, encrypt).

The embedding mirrors the Python source line by line.  Python exceptions are
made explicit: every operation returns the raised exception together with the
state of the mutated object (Python mutates self in place, so a raise can
leave a partially updated object behind).  The repository module crypto
(RSASucker, AESSucker) is not under src/, so its behaviour is modelled from
the spec as an explicit parameter (CryptoPrims) threaded through the
operations; src/client.py binds it at construction as self.rsa / self.aes.
-/

namespace CryptoClient

/-- Bytes are modelled as natural numbers (values below 256). -/
abbrev Byte := Nat

/-- The errorDto part of every response envelope: body["errorDto"] with its
"code" and "message" entries, each nullable. -/
structure ErrorDto where
  code : Option String
  message : Option String
  deriving DecidableEq

/-- The fields of body["data"] that src/client.py reads.  A value none models
a key that is absent from the JSON object, whose subscript access raises
KeyError. -/
structure RespData where
  sessionId : Option String
  aesKey : Option String
  ivector : Option String
  secret : Option String
  deriving DecidableEq

/-- A transport response as consumed by check_response and make_request:
status_code, reason, and the JSON body split into errorDto and data. -/
structure Response where
  status_code : Nat
  reason : String
  errorDto : ErrorDto
  data : RespData
  deriving DecidableEq

/-- The Python exception classes that the modelled code can raise.
src/client.py defines exactly one class of its own, ServerError; the others
come from the runtime, the standard library, or the modelled crypto module. -/
inductive ExcClass where
  | serverError
  | attributeError
  | keyError
  | binasciiError
  | decryptionError
  deriving DecidableEq

/-- The exceptions the modelled code raises, one constructor per raise site.
The first three are the three raise statements of check_response, all of
class ServerError (the mismatch site carries the source comment
"Should be another exception"). -/
inductive PyErr where
  /-- raise ServerError("HTTP Response error: status reason") at a non-200 status. -/
  | httpError (status : Nat) (reason : String)
  /-- raise ServerError(errorDto message) at a non-null error code. -/
  | appError (message : Option String)
  /-- raise ServerError("Invalid SessionID. ") at a session identity mismatch. -/
  | sessionError
  /-- AttributeError from self.aes.encrypt when self.aes is None. -/
  | attrNoneEncrypt
  /-- KeyError from a subscript access on a JSON object lacking the key. -/
  | keyError (key : String)
  /-- binascii.Error from b64decode on malformed input. -/
  | b64Error
  /-- Modelled from the spec: DecryptionError raised by RSASucker.decrypt when
  a named field is malformed or cannot be decrypted (the crypto module is not
  under src/). -/
  | decryptError
  deriving DecidableEq

/-- The Python class of each raised exception.  All three check_response
raise sites construct the same class ServerError. -/
def PyErr.excClass : PyErr → ExcClass
  | .httpError _ _ => .serverError
  | .appError _ => .serverError
  | .sessionError => .serverError
  | .attrNoneEncrypt => .attributeError
  | .keyError _ => .keyError
  | .b64Error => .binasciiError
  | .decryptError => .decryptionError

/-- The message string carried by the exception, mirroring the format calls
in the source where the source fixes one. -/
def PyErr.excMessage : PyErr → Option String
  | .httpError status reason =>
      some ("HTTP Response error: " ++ toString status ++ " " ++ reason)
  | .appError message => message
  | .sessionError => some "Invalid SessionID. "
  | _ => none

/-- Modelled from the spec: the crypto module (RSASucker and AESSucker) is
part of the repository but not under src/.  rsaPublic is the public key the
agent exposes; rsaDec decrypts one field value with the private key, none
modelling a DecryptionError on a malformed or undecryptable field; aesEnc is
the deterministic symmetric encryption under a fixed key and IV. -/
structure CryptoPrims where
  rsaPublic : String
  rsaDec : String → Option String
  aesEnc : String → String → String → String

/-- The mutable state of one Client instance: the attributes set in
Client.__init__ of src/client.py.  self.rsa is carried outside the state by
the CryptoPrims parameter; self.aes is the key and IV handed to AESSucker. -/
structure Client where
  base_url : String
  session_id : Option String
  aes : Option (String × String)
  secret : Option (List Byte)
  use_encryption : Bool
  use_verification : Bool
  deriving DecidableEq

/-- A fresh instance as built by Client.__init__(base_url) with the default
keyword arguments use_encryption=True, use_verification=False. -/
def Client.init (base_url : String) : Client :=
  { base_url := base_url
    session_id := none
    aes := none
    secret := none
    use_encryption := true
    use_verification := false }

/-- The JSON payload posted by requests.post for each of the three
endpoints, recording what left the process on the wire. -/
inductive SentRequest where
  | rsakey (rsaKey : String) (encryption : Bool) (postCode : Bool)
  | loginReq (sessionId : Option String) (loginField : String) (passwordField : String)
  | verifyReq (codeField : String) (sessionId : Option String)
  deriving DecidableEq

/-- Outcome of one operation on the mutable Client object: either a normal
return with the updated state, or a propagated exception together with the
state the object was left in (Python mutates self in place, so a raise keeps
earlier assignments). -/
inductive Outcome (σ : Type) where
  | ok (s : σ)
  | raised (e : PyErr) (s : σ)
  deriving DecidableEq

/-- Value of one base64 alphabet character, none for a character outside the
alphabet. -/
def b64Val (ch : Char) : Option Nat :=
  if 65 ≤ ch.toNat ∧ ch.toNat ≤ 90 then some (ch.toNat - 65)
  else if 97 ≤ ch.toNat ∧ ch.toNat ≤ 122 then some (ch.toNat - 71)
  else if 48 ≤ ch.toNat ∧ ch.toNat ≤ 57 then some (ch.toNat + 4)
  else if ch = '+' then some 62
  else if ch = '/' then some 63
  else none

/-- Decode a base64 character stream four characters at a time, handling the
trailing padding group; none models binascii.Error. -/
def b64Quads : List Char → Option (List Byte)
  | [] => some []
  | a :: b :: e :: d :: rest =>
    match b64Val a, b64Val b with
    | some va, some vb =>
      if e = '=' ∧ d = '=' ∧ rest = [] then
        some [va * 4 + vb / 16]
      else
        match b64Val e with
        | some ve =>
          if d = '=' ∧ rest = [] then
            some [va * 4 + vb / 16, (vb % 16) * 16 + ve / 4]
          else
            match b64Val d with
            | some vd =>
              (b64Quads rest).map
                (fun tl => (va * 4 + vb / 16) ::
                  ((vb % 16) * 16 + ve / 4) :: ((ve % 4) * 64 + vd) :: tl)
            | none => none
        | none => none
    | _, _ => none
  | _ => none

/-- Model of base64.b64decode from the Python standard library as used by
build_token, on canonically padded input: characters outside the alphabet are
discarded before decoding (validate defaults to False), then the stream is
decoded in groups of four. -/
def b64decode (s : String) : Option (List Byte) :=
  b64Quads (s.data.filter (fun ch => (b64Val ch).isSome || ch = '='))

/-- Client.check_response of src/client.py, lines 26 to 33: a non-200 status
raises first, then a non-null errorDto code, then a session identity
mismatch, each raising class ServerError.  The mismatch test short-circuits
on the truthiness of self.session_id (None and the empty string are falsy),
and only a truthy stored identity makes the code subscript
data["sessionId"]. -/
def check_response (c : Client) (r : Response) : Except PyErr Unit :=
  if r.status_code ≠ 200 then
    .error (.httpError r.status_code r.reason)
  else if r.errorDto.code ≠ none then
    .error (.appError r.errorDto.message)
  else
    match c.session_id with
    | none => .ok ()
    | some s =>
      if s.isEmpty then .ok ()
      else
        match r.data.sessionId with
        | none => .error (.keyError "sessionId")
        | some rs => if s ≠ rs then .error .sessionError else .ok ()

/-- Modelled from the spec: self.rsa.decrypt(data, ["aesKey", "ivector"])
decrypts exactly the two named fields of the payload with the private key
and raises DecryptionError if either is malformed or cannot be decrypted
(the crypto module is not under src/). -/
def rsaDecryptFields (prims : CryptoPrims) (d : RespData) :
    Except PyErr (String × String) :=
  match d.aesKey, d.ivector with
  | some ak, some iv =>
    match prims.rsaDec ak, prims.rsaDec iv with
    | some dak, some div => .ok (dak, div)
    | _, _ => .error .decryptError
  | _, _ => .error .decryptError

/-- Client.encrypt of src/client.py, lines 71 to 72:
data if not self.use_encryption else self.aes.encrypt(data).  With the
toggle off the value passes through unchanged and self.aes is never touched;
with the toggle on, self.aes being None raises AttributeError, otherwise the
AESSucker encrypts under the session key and IV. -/
def Client.encrypt (prims : CryptoPrims) (c : Client) (s : String) :
    Except PyErr String :=
  if c.use_encryption = false then .ok s
  else
    match c.aes with
    | none => .error .attrNoneEncrypt
    | some (k, iv) => .ok (prims.aesEnc k iv s)

/-- Client.build_token of src/client.py, lines 68 to 69:
self.secret = b64decode(data["secret"]). -/
def Client.build_token (c : Client) (d : RespData) : Except PyErr Client :=
  match d.secret with
  | none => .error (.keyError "secret")
  | some s =>
    match b64decode s with
    | none => .error .b64Error
    | some bs => .ok { c with secret := some bs }

/-- Client.connect of src/client.py, lines 35 to 45.  The handshake request
(public key plus the two capability flags) is posted, the response is
validated by check_response, then self.session_id is assigned from
data["sessionId"] BEFORE the aesKey and ivector fields are decrypted and the
AESSucker is installed.  resp is the response the transport returns; the
second component records the posted request. -/
def Client.connect (prims : CryptoPrims) (c : Client) (resp : Response) :
    Outcome Client × Option SentRequest :=
  let req := SentRequest.rsakey prims.rsaPublic c.use_encryption c.use_verification
  match check_response c resp with
  | .error e => (.raised e c, some req)
  | .ok _ =>
    match resp.data.sessionId with
    | none => (.raised (.keyError "sessionId") c, some req)
    | some sid =>
      let c1 := { c with session_id := some sid }
      match rsaDecryptFields prims resp.data with
      | .error e => (.raised e c1, some req)
      | .ok (dak, div) => (.ok { c1 with aes := some (dak, div) }, some req)

/-- Client.login of src/client.py, lines 47 to 57.  The request dict
evaluates self.encrypt(login) then self.encrypt(password); a failure there
happens before any network call.  The posted request carries the current
session identity and the two processed fields; the response is validated by
check_response, and only when use_verification is false is build_token
applied to the response data. -/
def Client.login (prims : CryptoPrims) (c : Client) (lg pw : String)
    (resp : Response) : Outcome Client × Option SentRequest :=
  match Client.encrypt prims c lg with
  | .error e => (.raised e c, none)
  | .ok elg =>
    match Client.encrypt prims c pw with
    | .error e => (.raised e c, none)
    | .ok epw =>
      let req := SentRequest.loginReq c.session_id elg epw
      match check_response c resp with
      | .error e => (.raised e c, some req)
      | .ok _ =>
        if c.use_verification then (.ok c, some req)
        else
          match Client.build_token c resp.data with
          | .error e => (.raised e c, some req)
          | .ok c2 => (.ok c2, some req)

/-- Client.verify of src/client.py, lines 59 to 66.  self.encrypt(code) is
evaluated before the network call; the posted request carries the processed
code and the current session identity; the response is validated and
build_token is applied unconditionally. -/
def Client.verify (prims : CryptoPrims) (c : Client) (code : String)
    (resp : Response) : Outcome Client × Option SentRequest :=
  match Client.encrypt prims c code with
  | .error e => (.raised e c, none)
  | .ok ec =>
    let req := SentRequest.verifyReq ec c.session_id
    match check_response c resp with
    | .error e => (.raised e c, some req)
    | .ok _ =>
      match Client.build_token c resp.data with
      | .error e => (.raised e c, some req)
      | .ok c2 => (.ok c2, some req)

/-! Concrete fixtures used by witnesses and counterexamples. -/

/-- A concrete crypto instantiation where every RSA field decrypts (to
itself) and the symmetric cipher prepends key and IV. -/
def prims0 : CryptoPrims :=
  { rsaPublic := "PK"
    rsaDec := fun s => some s
    aesEnc := fun k iv s => k ++ iv ++ s }

/-- A concrete crypto instantiation where RSA decryption fails on every
field (all fields malformed). -/
def primsFail : CryptoPrims :=
  { rsaPublic := "PK"
    rsaDec := fun _ => none
    aesEnc := fun k iv s => k ++ iv ++ s }

/-- An envelope errorDto with a null code. -/
def okDto : ErrorDto := { code := none, message := none }

/-- A clean handshake response carrying sessionId "s1" and encrypted key
material. -/
def respHsS1 : Response :=
  { status_code := 200, reason := "OK", errorDto := okDto
    data := { sessionId := some "s1", aesKey := some "EK", ivector := some "EV",
              secret := none } }

/-- A clean handshake response carrying sessionId "s2" and encrypted key
material. -/
def respHsS2 : Response :=
  { status_code := 200, reason := "OK", errorDto := okDto
    data := { sessionId := some "s2", aesKey := some "EK2", ivector := some "EV2",
              secret := none } }

/-- A clean response for session "s1" whose data carries only a differing
sessionId "s2". -/
def respMismatch : Response :=
  { status_code := 200, reason := "OK", errorDto := okDto
    data := { sessionId := some "s2", aesKey := none, ivector := none,
              secret := none } }

/-- A failed transport response that also carries a non-null error code. -/
def respC3 : Response :=
  { status_code := 500, reason := "Internal Server Error"
    errorDto := { code := some "E1", message := some "boom" }
    data := { sessionId := none, aesKey := none, ivector := none, secret := none } }

/-- A clean login response for session "s1" whose data carries the base64
secret "c2VjcmV0". -/
def respLoginS1 : Response :=
  { status_code := 200, reason := "OK", errorDto := okDto
    data := { sessionId := some "s1", aesKey := none, ivector := none,
              secret := some "c2VjcmV0" } }

/-- A clean login response for session "s1" carrying no secret (verification
pending). -/
def respLoginPending : Response :=
  { status_code := 200, reason := "OK", errorDto := okDto
    data := { sessionId := some "s1", aesKey := none, ivector := none,
              secret := none } }

/-- A clean verification response for session "s1" whose data carries the
base64 secret "dG9rZW4=". -/
def respVerifyS1 : Response :=
  { status_code := 200, reason := "OK", errorDto := okDto
    data := { sessionId := some "s1", aesKey := none, ivector := none,
              secret := some "dG9rZW4=" } }

/-- A client with an established session "s1" and an installed cipher,
verification not required (the defaults except for the handshake results). -/
def cEstNoVer : Client :=
  { Client.init "u" with session_id := some "s1", aes := some ("K", "V") }

/-- The established client of an encryption-and-verification session. -/
def cEstVer : Client := { cEstNoVer with use_verification := true }

/-- A fresh client constructed with use_encryption=False. -/
def cNoEnc : Client := { Client.init "u" with use_encryption := false }

/-- A client whose handshake stored the empty string as session identity. -/
def cEmptySid : Client := { Client.init "u" with session_id := some "" }

example : b64decode "c2VjcmV0" = some [115, 101, 99, 114, 101, 116] := by decide
example : b64decode "dG9rZW4=" = some [116, 111, 107, 101, 110] := by decide

/-! Helper lemmas about the individual operations, shared by the claim
theorems below. -/

/-- check_response can only raise at its three ServerError sites or at the
KeyError subscript; in particular it never raises the DecryptionError of the
modelled crypto module. -/
theorem check_response_errors (c : Client) (r : Response) (e : PyErr)
    (h : check_response c r = .error e) :
    e = .httpError r.status_code r.reason ∨ e = .appError r.errorDto.message ∨
    e = .keyError "sessionId" ∨ e = .sessionError := by
  unfold check_response at h
  split at h
  · exact Or.inl (by injection h with h; exact h.symm)
  · split at h
    · exact Or.inr (Or.inl (by injection h with h; exact h.symm))
    · split at h
      · exact absurd h (by simp)
      · split at h
        · exact absurd h (by simp)
        · split at h
          · exact Or.inr (Or.inr (Or.inl (by injection h with h; exact h.symm)))
          · split at h
            · exact Or.inr (Or.inr (Or.inr (by injection h with h; exact h.symm)))
            · exact absurd h (by simp)

/-- rsaDecryptFields can only fail with the modelled DecryptionError. -/
theorem rsaDecryptFields_errors (prims : CryptoPrims) (d : RespData) (e : PyErr)
    (h : rsaDecryptFields prims d = .error e) : e = .decryptError := by
  unfold rsaDecryptFields at h
  split at h
  · split at h
    · exact absurd h (by simp)
    · injection h with h; exact h.symm
  · injection h with h; exact h.symm

/-- build_token succeeds exactly by decoding the base64 secret field of the
response data into the secret attribute, changing nothing else. -/
theorem build_token_ok (c c2 : Client) (d : RespData)
    (h : Client.build_token c d = .ok c2) :
    ∃ s bs, d.secret = some s ∧ b64decode s = some bs ∧
      c2 = { c with secret := some bs } := by
  unfold Client.build_token at h
  split at h
  · exact absurd h (by simp)
  · split at h
    · exact absurd h (by simp)
    · exact ⟨_, _, by assumption, by assumption, by injection h with h; exact h.symm⟩

/-- With the toggle on and a cipher installed, encrypt is the symmetric
encryption under the session key and IV. -/
theorem encrypt_on (prims : CryptoPrims) (c : Client) (s k iv : String)
    (henc : c.use_encryption = true) (haes : c.aes = some (k, iv)) :
    Client.encrypt prims c s = .ok (prims.aesEnc k iv s) := by
  unfold Client.encrypt
  rw [henc, haes]
  simp

/-- With the toggle off, encrypt is the identity and touches no cipher. -/
theorem encrypt_off (prims : CryptoPrims) (c : Client) (s : String)
    (henc : c.use_encryption = false) :
    Client.encrypt prims c s = .ok s := by
  unfold Client.encrypt
  rw [henc]
  simp

/-- Whenever the two encrypt steps succeed, login posts the request with the
current session identity and the two processed fields, whatever the response
validation later does. -/
theorem login_sent (prims : CryptoPrims) (c : Client) (lg pw : String)
    (resp : Response) (elg epw : String)
    (h1 : Client.encrypt prims c lg = .ok elg)
    (h2 : Client.encrypt prims c pw = .ok epw) :
    (Client.login prims c lg pw resp).2 = some (.loginReq c.session_id elg epw) := by
  unfold Client.login
  rw [h1, h2]
  cases hc : check_response c resp with
  | error e => simp
  | ok u =>
    simp only
    split
    · simp
    · cases hb : Client.build_token c resp.data <;> simp

/-- Whenever the encrypt step succeeds, verify posts the request with the
processed code and the current session identity, whatever the response
validation later does. -/
theorem verify_sent (prims : CryptoPrims) (c : Client) (code : String)
    (resp : Response) (ec : String)
    (h : Client.encrypt prims c code = .ok ec) :
    (Client.verify prims c code resp).2 = some (.verifyReq ec c.session_id) := by
  unfold Client.verify
  rw [h]
  cases hc : check_response c resp with
  | error e => simp
  | ok u => cases hb : Client.build_token c resp.data <;> simp

/-- A successful login on a client with use_verification=False ends in
build_token: the response data carried a base64 secret whose decoding is now
the stored token, and nothing else changed. -/
theorem login_ok_nover (prims : CryptoPrims) (c : Client) (lg pw : String)
    (resp : Response) (c2 : Client)
    (hver : c.use_verification = false)
    (hok : (Client.login prims c lg pw resp).1 = .ok c2) :
    ∃ s bs, resp.data.secret = some s ∧ b64decode s = some bs ∧
      c2 = { c with secret := some bs } := by
  unfold Client.login at hok
  cases h1 : Client.encrypt prims c lg with
  | error e => rw [h1] at hok; simp at hok
  | ok elg =>
    rw [h1] at hok
    cases h2 : Client.encrypt prims c pw with
    | error e => rw [h2] at hok; simp at hok
    | ok epw =>
      rw [h2] at hok
      cases hc : check_response c resp with
      | error e => rw [hc] at hok; simp at hok
      | ok u =>
        rw [hc, hver] at hok
        cases hb : Client.build_token c resp.data with
        | error e => rw [hb] at hok; simp at hok
        | ok c3 =>
          rw [hb] at hok
          simp at hok
          subst hok
          exact build_token_ok c c3 resp.data hb

/-- A successful login on a client with use_verification=True mutates
nothing: build_token is skipped and the object is returned as it was. -/
theorem login_ok_ver (prims : CryptoPrims) (c : Client) (lg pw : String)
    (resp : Response) (c2 : Client)
    (hver : c.use_verification = true)
    (hok : (Client.login prims c lg pw resp).1 = .ok c2) :
    c2 = c := by
  unfold Client.login at hok
  cases h1 : Client.encrypt prims c lg with
  | error e => rw [h1] at hok; simp at hok
  | ok elg =>
    rw [h1] at hok
    cases h2 : Client.encrypt prims c pw with
    | error e => rw [h2] at hok; simp at hok
    | ok epw =>
      rw [h2] at hok
      cases hc : check_response c resp with
      | error e => rw [hc] at hok; simp at hok
      | ok u =>
        rw [hc, hver] at hok
        simp at hok
        exact hok.symm

/-- A successful verify ends in build_token: the response data carried a
base64 secret whose decoding is now the stored token, and nothing else
changed. -/
theorem verify_ok (prims : CryptoPrims) (c : Client) (code : String)
    (resp : Response) (c2 : Client)
    (hok : (Client.verify prims c code resp).1 = .ok c2) :
    ∃ s bs, resp.data.secret = some s ∧ b64decode s = some bs ∧
      c2 = { c with secret := some bs } := by
  unfold Client.verify at hok
  cases h1 : Client.encrypt prims c code with
  | error e => rw [h1] at hok; simp at hok
  | ok ec =>
    rw [h1] at hok
    cases hc : check_response c resp with
    | error e => rw [hc] at hok; simp at hok
    | ok u =>
      rw [hc] at hok
      cases hb : Client.build_token c resp.data with
      | error e => rw [hb] at hok; simp at hok
      | ok c3 =>
        rw [hb] at hok
        simp at hok
        subst hok
        exact build_token_ok c c3 resp.data hb

/-! Claim theorems. -/

/-- C2 (code_bug): with session "s1" established, a clean response carrying
data.sessionId "s2" makes check_response raise the session mismatch error,
but that exception is of class ServerError, the very class every
server-reported business error is raised with: the error kinds are not
distinct, contrary to the claim (the source comments the raise site with
"Should be another exception"). -/
theorem c2_mismatch_not_distinct_class :
    check_response cEstNoVer respMismatch = .error .sessionError ∧
    PyErr.excClass .sessionError = PyErr.excClass (.appError (some "business error")) := by
  exact ⟨rfl, rfl⟩

/-- C3 (confirmed): on a response whose transport status is not 200 and
whose body carries a non-null error code, check_response raises the
transport error reporting the HTTP status and reason, and never the
application error: the status test runs first and short-circuits the rest. -/
theorem c3_transport_error_first (c : Client) (r : Response)
    (h1 : r.status_code ≠ 200) (h2 : r.errorDto.code ≠ none) :
    check_response c r = .error (.httpError r.status_code r.reason) ∧
    ∀ m, check_response c r ≠ .error (.appError m) := by
  refine ⟨?_, ?_⟩ <;> simp [check_response, h1]

/-- Witness for C3 at a concrete response with status 500 and error code
"E1". -/
theorem c3_transport_error_first_witness :
    respC3.status_code ≠ 200 ∧ respC3.errorDto.code ≠ none ∧
    (check_response (Client.init "u") respC3 =
        .error (.httpError respC3.status_code respC3.reason) ∧
      ∀ m, check_response (Client.init "u") respC3 ≠ .error (.appError m)) :=
  ⟨by decide, by decide,
    c3_transport_error_first (Client.init "u") respC3 (by decide) (by decide)⟩

/-- C10 (confirmed): the session identity test is gated on Python
truthiness, and the empty string is falsy, so a client whose stored
identity is the empty string never sees the session mismatch error from
validation, whatever the response carries. -/
theorem c10_empty_identity_never_mismatch (c : Client) (r : Response)
    (h : c.session_id = some "") :
    check_response c r ≠ .error .sessionError := by
  unfold check_response
  rw [h]
  split
  · simp
  · split
    · simp
    · simp [show ("" : String).isEmpty = true from rfl]

/-- Witness for C10 at a concrete client storing the empty identity and a
response whose data.sessionId is the differing "s2". -/
theorem c10_empty_identity_never_mismatch_witness :
    cEmptySid.session_id = some "" ∧
    check_response cEmptySid respMismatch ≠ .error .sessionError :=
  ⟨rfl, c10_empty_identity_never_mismatch cEmptySid respMismatch rfl⟩

/-- C1 counterexample: on a fresh client, a handshake whose key material
fails to decrypt leaves the client with session_id already set to the
responses "s1" — not None as the claim states for every failing step. -/
theorem c1_counterexample :
    (Client.connect primsFail (Client.init "u") respHsS1).1 =
      .raised .decryptError { Client.init "u" with session_id := some "s1" } ∧
    ¬ (∀ e c2, (Client.connect primsFail (Client.init "u") respHsS1).1 = .raised e c2 →
        c2.session_id = none ∧ c2.aes = none) := by
  refine ⟨rfl, fun hall => ?_⟩
  have h := (hall .decryptError { Client.init "u" with session_id := some "s1" } rfl).1
  simp at h

/-- C1 amended: on any handshake failure no cipher is installed and the
token is untouched, and a failure in transport validation, application
validation or the sessionId subscript leaves the state exactly as before
the call; but when the failure is the decryption of the key material, the
session identity has already been assigned from the response. -/
theorem c1_connect_failure_state (prims : CryptoPrims) (c : Client)
    (resp : Response) (e : PyErr) (c2 : Client)
    (h : (Client.connect prims c resp).1 = .raised e c2) :
    c2.aes = c.aes ∧ c2.secret = c.secret ∧
    (e ≠ .decryptError → c2 = c) ∧
    (e = .decryptError →
      ∃ sid, resp.data.sessionId = some sid ∧
        c2 = { c with session_id := some sid }) := by
  unfold Client.connect at h
  cases hc : check_response c resp with
  | error e2 =>
    rw [hc] at h
    simp at h
    obtain ⟨h1, h2⟩ := h
    subst h1
    subst h2
    rcases check_response_errors c resp e2 hc with h4 | h4 | h4 | h4 <;> subst h4 <;>
      exact ⟨rfl, rfl, fun _ => rfl, fun hd => absurd hd (by simp)⟩
  | ok u =>
    rw [hc] at h
    cases hsid : resp.data.sessionId with
    | none =>
      rw [hsid] at h
      simp at h
      obtain ⟨h1, h2⟩ := h
      subst h1
      subst h2
      exact ⟨rfl, rfl, fun _ => rfl, fun hd => absurd hd (by simp)⟩
    | some sid =>
      rw [hsid] at h
      cases hdec : rsaDecryptFields prims resp.data with
      | error e2 =>
        rw [hdec] at h
        simp at h
        obtain ⟨h1, h2⟩ := h
        subst h1
        subst h2
        have he2 : e2 = .decryptError := rsaDecryptFields_errors prims resp.data e2 hdec
        subst he2
        exact ⟨rfl, rfl, fun hne => absurd rfl hne, fun _ => ⟨sid, rfl, rfl⟩⟩
      | ok kv =>
        rw [hdec] at h
        simp at h

/-- Witness for the amended C1 at one concrete failing handshake: the
transport reports status 500, and the fresh client is left exactly as it
was. -/
theorem c1_connect_failure_state_witness :
    (Client.connect prims0 (Client.init "u") respC3).1 =
      .raised (.httpError 500 "Internal Server Error") (Client.init "u") ∧
    ((Client.init "u").aes = (Client.init "u").aes ∧
      (Client.init "u").secret = (Client.init "u").secret ∧
      (PyErr.httpError 500 "Internal Server Error" ≠ .decryptError →
        Client.init "u" = Client.init "u") ∧
      (PyErr.httpError 500 "Internal Server Error" = .decryptError →
        ∃ sid, respC3.data.sessionId = some sid ∧
          Client.init "u" = { Client.init "u" with session_id := some sid })) :=
  ⟨rfl, c1_connect_failure_state prims0 (Client.init "u") respC3
    (.httpError 500 "Internal Server Error") (Client.init "u") rfl⟩

/-- C4 counterexample: on a fresh client built with use_encryption=False,
calling login before any connect does not fail with any state error — the
request IS posted (with a None session identity) and the call even succeeds,
decoding the returned secret.  This refutes both halves of the claim: no
ProtocolStateError exists, and a network request is issued. -/
theorem c4_counterexample :
    (Client.login prims0 cNoEnc "alice" "pw" respLoginS1).2 =
      some (.loginReq none "alice" "pw") ∧
    (Client.login prims0 cNoEnc "alice" "pw" respLoginS1).2 ≠ none ∧
    (Client.login prims0 cNoEnc "alice" "pw" respLoginS1).1 =
      .ok { cNoEnc with secret := some [115, 101, 99, 114, 101, 116] } := by
  refine ⟨rfl, ?_, rfl⟩
  intro hn
  rw [show (Client.login prims0 cNoEnc "alice" "pw" respLoginS1).2 =
      some (.loginReq none "alice" "pw") from rfl] at hn
  exact Option.noConfusion hn

/-- C4 amended: login performs no protocol-state check.  What does hold is
that with encryption enabled (the constructor default) and no cipher
installed — the observable situation before any successful connect — login
raises AttributeError from self.aes.encrypt while building the request
dict, and no network request is issued. -/
theorem c4_login_before_connect (prims : CryptoPrims) (c : Client)
    (lg pw : String) (resp : Response)
    (henc : c.use_encryption = true) (haes : c.aes = none) :
    (Client.login prims c lg pw resp).1 = .raised .attrNoneEncrypt c ∧
    (Client.login prims c lg pw resp).2 = none := by
  unfold Client.login Client.encrypt
  rw [henc, haes]
  simp

/-- Witness for the amended C4 on a concrete fresh default client. -/
theorem c4_login_before_connect_witness :
    (Client.init "u").use_encryption = true ∧ (Client.init "u").aes = none ∧
    ((Client.login prims0 (Client.init "u") "alice" "pw" respLoginS1).1 =
        .raised .attrNoneEncrypt (Client.init "u") ∧
      (Client.login prims0 (Client.init "u") "alice" "pw" respLoginS1).2 = none) :=
  ⟨rfl, rfl,
    c4_login_before_connect prims0 (Client.init "u") "alice" "pw" respLoginS1 rfl rfl⟩

/-- C5 counterexample: on an established session where verification was
never required (so no login could have been performed with verification
required), verify does not fail at all: it posts the request with the
encrypted code and the session identity, and on the servers clean response
it succeeds and installs the token — no ProtocolStateError anywhere. -/
theorem c5_counterexample :
    (Client.verify prims0 cEstNoVer "123456" respVerifyS1).1 =
      .ok { cEstNoVer with secret := some [116, 111, 107, 101, 110] } ∧
    (Client.verify prims0 cEstNoVer "123456" respVerifyS1).2 =
      some (.verifyReq "KV123456" (some "s1")) ∧
    ∀ e c2, (Client.verify prims0 cEstNoVer "123456" respVerifyS1).1 ≠ .raised e c2 := by
  refine ⟨rfl, rfl, fun e c2 hr => ?_⟩
  rw [show (Client.verify prims0 cEstNoVer "123456" respVerifyS1).1 =
      .ok { cEstNoVer with secret := some [116, 111, 107, 101, 110] } from rfl] at hr
  exact Outcome.noConfusion hr

/-- C5 amended: verify performs no protocol-state check.  Whenever the local
encrypt step succeeds (in particular on every established session,
regardless of any preceding login or of the verification flag), the request
is posted with the processed code and the session identity. -/
theorem c5_verify_no_state_check (prims : CryptoPrims) (c : Client)
    (code ec : String) (resp : Response)
    (henc : Client.encrypt prims c code = .ok ec) :
    (Client.verify prims c code resp).2 = some (.verifyReq ec c.session_id) :=
  verify_sent prims c code resp ec henc

/-- Witness for the amended C5 on the established no-verification client. -/
theorem c5_verify_no_state_check_witness :
    Client.encrypt prims0 cEstNoVer "123456" = .ok "KV123456" ∧
    (Client.verify prims0 cEstNoVer "123456" respVerifyS1).2 =
      some (.verifyReq "KV123456" cEstNoVer.session_id) :=
  ⟨rfl, c5_verify_no_state_check prims0 cEstNoVer "123456" "KV123456" respVerifyS1 rfl⟩

/-- C6 (confirmed): with verification not required, every successful login
stores as token the base64 decoding of the secret field of the response
data, and changes nothing else on the client; the authenticated state is
this installed token. -/
theorem c6_login_token (prims : CryptoPrims) (c : Client) (lg pw : String)
    (resp : Response) (c2 : Client)
    (hver : c.use_verification = false)
    (hok : (Client.login prims c lg pw resp).1 = .ok c2) :
    ∃ s bs, resp.data.secret = some s ∧ b64decode s = some bs ∧
      c2 = { c with secret := some bs } :=
  login_ok_nover prims c lg pw resp c2 hver hok

/-- Witness for C6: on the established session "s1" the server returns
secret "c2VjcmV0" and the stored token becomes the bytes of "secret". -/
theorem c6_login_token_witness :
    cEstNoVer.use_verification = false ∧
    (Client.login prims0 cEstNoVer "alice" "pw" respLoginS1).1 =
      .ok { cEstNoVer with secret := some [115, 101, 99, 114, 101, 116] } ∧
    ∃ s bs, respLoginS1.data.secret = some s ∧ b64decode s = some bs ∧
      ({ cEstNoVer with secret := some [115, 101, 99, 114, 101, 116] } : Client) =
        { cEstNoVer with secret := some bs } :=
  ⟨rfl, rfl,
    c6_login_token prims0 cEstNoVer "alice" "pw" respLoginS1
      { cEstNoVer with secret := some [115, 101, 99, 114, 101, 116] } rfl rfl⟩

/-- C7 (confirmed): with verification required, a successful login leaves
the client — in particular its token — exactly as it was, and a subsequent
successful verify stores as token the base64 decoding of the secret field
of its response data. -/
theorem c7_verify_token (prims : CryptoPrims) (c : Client)
    (lg pw code : String) (resp resp2 : Response) (c2 c3 : Client)
    (hver : c.use_verification = true)
    (hok : (Client.login prims c lg pw resp).1 = .ok c2)
    (hok2 : (Client.verify prims c2 code resp2).1 = .ok c3) :
    c2 = c ∧ ∃ s bs, resp2.data.secret = some s ∧ b64decode s = some bs ∧
      c3 = { c2 with secret := some bs } :=
  ⟨login_ok_ver prims c lg pw resp c2 hver hok,
    verify_ok prims c2 code resp2 c3 hok2⟩

/-- Witness for C7: login returns no secret and leaves the client unchanged;
verify with the server returning secret "dG9rZW4=" stores the bytes of
"token". -/
theorem c7_verify_token_witness :
    cEstVer.use_verification = true ∧
    (Client.login prims0 cEstVer "alice" "pw" respLoginPending).1 = .ok cEstVer ∧
    (Client.verify prims0 cEstVer "123456" respVerifyS1).1 =
      .ok { cEstVer with secret := some [116, 111, 107, 101, 110] } ∧
    (cEstVer = cEstVer ∧
      ∃ s bs, respVerifyS1.data.secret = some s ∧ b64decode s = some bs ∧
        ({ cEstVer with secret := some [116, 111, 107, 101, 110] } : Client) =
          { cEstVer with secret := some bs }) :=
  ⟨rfl, rfl, rfl,
    c7_verify_token prims0 cEstVer "alice" "pw" "123456" respLoginPending respVerifyS1
      cEstVer { cEstVer with secret := some [116, 111, 107, 101, 110] } rfl rfl rfl⟩

/-- C8 (confirmed): with a cipher installed, the login, password and code
fields that leave the process are the symmetric encryption of the
caller-supplied values when the session toggle is on, and the values
themselves, unchanged, when the toggle is off. -/
theorem c8_conditional_field_encryption (prims : CryptoPrims) (c : Client)
    (lg pw code : String) (resp : Response) (k iv : String)
    (haes : c.aes = some (k, iv)) :
    (c.use_encryption = true →
      (Client.login prims c lg pw resp).2 =
        some (.loginReq c.session_id (prims.aesEnc k iv lg) (prims.aesEnc k iv pw)) ∧
      (Client.verify prims c code resp).2 =
        some (.verifyReq (prims.aesEnc k iv code) c.session_id)) ∧
    (c.use_encryption = false →
      (Client.login prims c lg pw resp).2 = some (.loginReq c.session_id lg pw) ∧
      (Client.verify prims c code resp).2 = some (.verifyReq code c.session_id)) := by
  constructor
  · intro henc
    exact ⟨login_sent prims c lg pw resp _ _
        (encrypt_on prims c lg k iv henc haes) (encrypt_on prims c pw k iv henc haes),
      verify_sent prims c code resp _ (encrypt_on prims c code k iv henc haes)⟩
  · intro henc
    exact ⟨login_sent prims c lg pw resp _ _
        (encrypt_off prims c lg henc) (encrypt_off prims c pw henc),
      verify_sent prims c code resp _ (encrypt_off prims c code henc)⟩

/-- Witness for C8 on the established client, whose toggle is on: the posted
fields are the cipher outputs under key "K" and IV "V". -/
theorem c8_conditional_field_encryption_witness :
    cEstNoVer.aes = some ("K", "V") ∧
    ((cEstNoVer.use_encryption = true →
      (Client.login prims0 cEstNoVer "alice" "pw" respLoginS1).2 =
        some (.loginReq cEstNoVer.session_id
          (prims0.aesEnc "K" "V" "alice") (prims0.aesEnc "K" "V" "pw")) ∧
      (Client.verify prims0 cEstNoVer "123456" respLoginS1).2 =
        some (.verifyReq (prims0.aesEnc "K" "V" "123456") cEstNoVer.session_id)) ∧
    (cEstNoVer.use_encryption = false →
      (Client.login prims0 cEstNoVer "alice" "pw" respLoginS1).2 =
        some (.loginReq cEstNoVer.session_id "alice" "pw") ∧
      (Client.verify prims0 cEstNoVer "123456" respLoginS1).2 =
        some (.verifyReq "123456" cEstNoVer.session_id))) :=
  ⟨rfl, c8_conditional_field_encryption prims0 cEstNoVer "alice" "pw" "123456"
    respLoginS1 "K" "V" rfl⟩

/-- C9 counterexample: on the established session "s1", a second connect
whose handshake response carries sessionId "s2" is NOT accepted: the
response is validated against the stored identity, the session mismatch
ServerError is raised, and the old state — key material included — is
retained. -/
theorem c9_counterexample :
    (Client.connect prims0 cEstNoVer respHsS2).1 = .raised .sessionError cEstNoVer ∧
    ∀ c2, (Client.connect prims0 cEstNoVer respHsS2).1 ≠ .ok c2 := by
  refine ⟨rfl, fun c2 hr => ?_⟩
  rw [show (Client.connect prims0 cEstNoVer respHsS2).1 =
      .raised .sessionError cEstNoVer from rfl] at hr
  exact Outcome.noConfusion hr

/-- C9 amended: a repeat connect is itself validated against the stored
identity.  When the new responses sessionId equals the stored identity and
the response is clean and its key material decrypts, connect succeeds and
the new material replaces the old; when the stored identity is truthy and
the new sessionId differs, connect raises the session mismatch ServerError
and the whole old state is retained. -/
theorem c9_reconnect (prims : CryptoPrims) (c : Client) (resp resp2 : Response)
    (sid k iv dk dv sid2 : String)
    (hst : resp.status_code = 200) (hcode : resp.errorDto.code = none)
    (hsid : resp.data.sessionId = some sid) (hmatch : c.session_id = some sid)
    (hak : resp.data.aesKey = some k) (hiv : resp.data.ivector = some iv)
    (hdk : prims.rsaDec k = some dk) (hdv : prims.rsaDec iv = some dv)
    (hst2 : resp2.status_code = 200) (hcode2 : resp2.errorDto.code = none)
    (hsid2 : resp2.data.sessionId = some sid2)
    (hne : sid ≠ sid2) (hs : sid.isEmpty = false) :
    (Client.connect prims c resp).1 =
      .ok { c with session_id := some sid, aes := some (dk, dv) } ∧
    (Client.connect prims c resp2).1 = .raised .sessionError c := by
  have hchk : check_response c resp = .ok () := by
    unfold check_response
    rw [hst, hcode, hmatch, hsid]
    simp
  have hdecf : rsaDecryptFields prims resp.data = .ok (dk, dv) := by
    unfold rsaDecryptFields
    rw [hak, hiv]
    simp [hdk, hdv]
  have hchk2 : check_response c resp2 = .error .sessionError := by
    unfold check_response
    rw [hst2, hcode2, hmatch, hsid2]
    simp [hs, hne]
  constructor
  · unfold Client.connect
    rw [hchk, hsid, hdecf]
  · unfold Client.connect
    rw [hchk2]

/-- Witness for the amended C9 on the established session "s1": a matching
clean handshake succeeds and installs the newly decrypted material, a
mismatching one raises the session error and keeps the state. -/
theorem c9_reconnect_witness :
    respHsS1.status_code = 200 ∧ respHsS1.errorDto.code = none ∧
    respHsS1.data.sessionId = some "s1" ∧ cEstNoVer.session_id = some "s1" ∧
    respHsS1.data.aesKey = some "EK" ∧ respHsS1.data.ivector = some "EV" ∧
    prims0.rsaDec "EK" = some "EK" ∧ prims0.rsaDec "EV" = some "EV" ∧
    respHsS2.status_code = 200 ∧ respHsS2.errorDto.code = none ∧
    respHsS2.data.sessionId = some "s2" ∧ "s1" ≠ "s2" ∧
    ("s1" : String).isEmpty = false ∧
    ((Client.connect prims0 cEstNoVer respHsS1).1 =
        .ok { cEstNoVer with session_id := some "s1", aes := some ("EK", "EV") } ∧
      (Client.connect prims0 cEstNoVer respHsS2).1 = .raised .sessionError cEstNoVer) :=
  ⟨rfl, rfl, rfl, rfl, rfl, rfl, rfl, rfl, rfl, rfl, rfl, by decide, rfl,
    c9_reconnect prims0 cEstNoVer respHsS1 respHsS2 "s1" "EK" "EV" "EK" "EV" "s2"
      rfl rfl rfl rfl rfl rfl rfl rfl rfl rfl rfl (by decide) rfl⟩

end CryptoClient
